import Mathlib

/-!
Verification of the ManasX governance pipeline against its specification.

The JavaScript sources are shallowly embedded: JS strings are modelled as
`List Char`, JS `Map`s as insertion-ordered association lists, numbers as
`ℚ` (all weights involved are dyadic and small, so IEEE doubles behave
exactly like rationals here), thrown exceptions as `Except`, and
environment-dependent values (`process.cwd()`-relative paths, timestamps,
free-text display messages) as explicit parameters or omitted fields.
Omitted fields are display-only strings (violation `message` and
`suggestion` texts) and timestamps; no claim refers to them.
-/

namespace ManasX

abbrev Chars := List Char

/-- Character class `[a-z]`. -/
def isLowerAZ (c : Char) : Bool := 'a' ≤ c && c ≤ 'z'

/-- Character class `[A-Z]`. -/
def isUpperAZ (c : Char) : Bool := 'A' ≤ c && c ≤ 'Z'

/-- Character class `[0-9]`. -/
def isDigit09 (c : Char) : Bool := '0' ≤ c && c ≤ '9'

/-- Character class `[a-zA-Z]`. -/
def isAlphaAZ (c : Char) : Bool := isLowerAZ c || isUpperAZ c

/-- JS `\s` for the whitespace characters occurring in source text
(space, tab, newline, carriage return, vertical tab, form feed). -/
def isSpaceJs (c : Char) : Bool :=
  c = ' ' || c = '\t' || c = '\n' || c = '\r' || c = '\x0b' || c = '\x0c'

/-- JS regex `.` (matches everything except line terminators). -/
def isDotChar (c : Char) : Bool := !(c = '\n' || c = '\r')

/-- JS line terminators relevant for `$` in multiline mode. -/
def isLineTerm (c : Char) : Bool := c = '\n' || c = '\r'

/-- Identifier start class `[a-zA-Z_$]`. -/
def isIdentStart (c : Char) : Bool := isAlphaAZ c || c = '_' || c = '$'

/-- Identifier continuation class `[a-zA-Z0-9_$]`. -/
def isIdentChar (c : Char) : Bool := isIdentStart c || isDigit09 c

/-- Whether `sub` occurs as a contiguous sublist of `l` (JS `String.includes`). -/
def isSubstringAux (sub : Chars) : Chars → Bool
  | [] => sub.isEmpty
  | c :: cs => sub.isPrefixOf (c :: cs) || isSubstringAux sub cs

def isSubstring (sub l : Chars) : Bool := isSubstringAux sub l

/-- JS `String.indexOf(sub)`: index of the first occurrence, `-1` if absent. -/
def indexOfSubAux (sub : Chars) : Chars → Nat → Int
  | [], _ => if sub.isEmpty then 0 else -1
  | c :: cs, i =>
      if sub.isPrefixOf (c :: cs) then (i : Int) else indexOfSubAux sub cs (i + 1)

def indexOfSub (l sub : Chars) : Int := indexOfSubAux sub l 0

/-- JS `String.lastIndexOf(ch, fromIdx)` (backward search from `fromIdx` inclusive). -/
def jsLastIndexOf (l : Chars) (ch : Char) (fromIdx : Nat) : Int :=
  let pref := l.take (fromIdx + 1)
  let r := pref.reverse.findIdx (· = ch)
  if r = pref.length then -1 else ((pref.length - 1 - r : Nat) : Int)

/-- `getLineNumber(content, index)` from both DriftDetector and RuleEngine:
`content.substring(0, index).split('\n').length`. -/
def getLineNumber (content : Chars) (index : Nat) : Nat :=
  (content.take index).count '\n' + 1

/-- Column used by the drift analyses:
`match.index - content.lastIndexOf('\n', match.index)`. -/
def columnAt (content : Chars) (index : Nat) : Int :=
  (index : Int) - jsLastIndexOf content '\n' index

/-- JS `content.split(sep)` on a one-character separator. -/
def splitOnChar (sep : Char) (l : Chars) : List Chars :=
  l.foldr (fun c acc =>
    match acc with
    | [] => if c = sep then [[], []] else [[c]]
    | seg :: rest => if c = sep then [] :: (seg :: rest) else (c :: seg) :: rest) [[]]

/-- Segments of the content delimited by any line terminator. -/
def splitOnLineTerms (l : Chars) : List Chars :=
  l.foldr (fun c acc =>
    match acc with
    | [] => if isLineTerm c then [[], []] else [[c]]
    | seg :: rest => if isLineTerm c then [] :: (seg :: rest) else (c :: seg) :: rest) [[]]

/-- JS `Array.slice(a, b)` on lists. -/
def jsSlice (l : List α) (a b : Nat) : List α := (l.take b).drop a

/-- `Math.min` on rationals, written so the kernel can evaluate it. -/
def minQ (a b : ℚ) : ℚ := if a ≤ b then a else b

/-- `Math.max` on rationals, written so the kernel can evaluate it. -/
def maxQ (a b : ℚ) : ℚ := if a ≤ b then b else a

/-- `Math.min` on naturals, written so the kernel can evaluate it. -/
def minN (a b : Nat) : Nat := if a ≤ b then a else b

/-- JS truthiness of an optional string (`undefined`, `null` and `""` are falsy). -/
def truthy : Option String → Bool
  | none => false
  | some s => s ≠ ""

/-- Node `path` helper: part after the last `/`. -/
def lastPathPart (p : Chars) : Chars :=
  (splitOnChar '/' p).getLastD []

/-- Index of the last `.` in a list, if any. -/
def lastDotIdx (l : Chars) : Option Nat :=
  let r := l.reverse.findIdx (· = '.')
  if r = l.length then none else some (l.length - 1 - r)

/-- Node `path.extname`: extension (with dot) of the basename; empty for
dotfiles, names without a dot, and the special name `..`. -/
def extname (p : Chars) : Chars :=
  let base := lastPathPart p
  if base = ['.', '.'] then []
  else
    match lastDotIdx base with
    | none => []
    | some 0 => []
    | some i => base.drop i

/-- Node `path.basename(p, ext)`: basename with the suffix `ext` stripped
unless the basename is exactly `ext`. -/
def basenameExt (p ext : Chars) : Chars :=
  let base := lastPathPart p
  if base ≠ ext && ext.isSuffixOf base then base.take (base.length - ext.length)
  else base

/-! ## Lexical scanners

Embeddings of the global-regex scans used throughout the sources. Each
`tryMatch*At` function decides whether the regex matches at the head of the
list and returns the consumed length plus the captured data; `scanMatches`
replays the JS `exec`/`match` loop: try each position left to right and
resume after the end of every match. All the regexes involved are
deterministic at a fixed start position (their subpattern character classes
are disjoint), except the import regex whose backtracking is replayed
explicitly below. -/

/-- Generic left-to-right scan loop for a position matcher that never
matches the empty string. Fuel is the content length. -/
def scanAux (tryAt : Chars → Option (Nat × β)) : Nat → Chars → Nat → List (Nat × β)
  | 0, _, _ => []
  | _ + 1, [], _ => []
  | fuel + 1, c :: cs, i =>
    match tryAt (c :: cs) with
    | some (len, payload) => (i, payload) :: scanAux tryAt fuel ((c :: cs).drop len) (i + len)
    | none => scanAux tryAt fuel cs (i + 1)

def scanMatches (tryAt : Chars → Option (Nat × β)) (content : Chars) : List (Nat × β) :=
  scanAux tryAt content.length content 0

/-- The alternation `(?:let|const|var)` (alternatives tried in source order;
their first characters are distinct, so order is immaterial). -/
def matchDeclKeyword (l : Chars) : Option (Chars × Chars) :=
  if List.isPrefixOf "let".data l then some ("let".data, l.drop 3)
  else if List.isPrefixOf "const".data l then some ("const".data, l.drop 5)
  else if List.isPrefixOf "var".data l then some ("var".data, l.drop 3)
  else none

/-- One match attempt of `(?:let|const|var)\s+([a-zA-Z_$][a-zA-Z0-9_$]*)` at
the head of `l`: returns (match length, (full match text, captured name)). -/
def tryMatchVarAt (l : Chars) : Option (Nat × (Chars × Chars)) :=
  match matchDeclKeyword l with
  | none => none
  | some (kw, rest) =>
    let sp := rest.takeWhile isSpaceJs
    if sp.length = 0 then none
    else
      match rest.drop sp.length with
      | [] => none
      | c :: cs =>
        if isIdentStart c then
          let name := c :: cs.takeWhile isIdentChar
          some (kw.length + sp.length + name.length, (kw ++ sp ++ name, name))
        else none

/-- All matches of the variable-declaration regex: (index, (text, name)). -/
def scanVarDecls (content : Chars) : List (Nat × (Chars × Chars)) :=
  scanMatches tryMatchVarAt content

/-- Second alternative of the function regex:
`(?:const|let)\s+(id)\s*=\s*(?:async\s+)?(?:\([^)]*\)\s*=>|\([^)]*\))`. -/
def tryMatchFuncAlt2 (l : Chars) : Option (Nat × (Chars × Chars)) :=
  match (if List.isPrefixOf "const".data l then some 5
         else if List.isPrefixOf "let".data l then some 3 else none) with
  | none => none
  | some kwLen =>
    let rest1 := l.drop kwLen
    let sp1 := rest1.takeWhile isSpaceJs
    if sp1.length = 0 then none
    else
      match rest1.drop sp1.length with
      | [] => none
      | c :: cs =>
        if !(isIdentStart c) then none
        else
          let tail := cs.takeWhile isIdentChar
          let name := c :: tail
          let rest2 := cs.drop tail.length
          let sp2 := rest2.takeWhile isSpaceJs
          match rest2.drop sp2.length with
          | '=' :: rest3 =>
            let sp3 := rest3.takeWhile isSpaceJs
            let rest4 := rest3.drop sp3.length
            let asyncLen : Option Nat :=
              if List.isPrefixOf "async".data rest4 then
                let spA := (rest4.drop 5).takeWhile isSpaceJs
                if spA.length = 0 then none else some (5 + spA.length)
              else none
            let aLen := asyncLen.getD 0
            match rest4.drop aLen with
            | '(' :: restP =>
              let inner := restP.takeWhile (· ≠ ')')
              match restP.drop inner.length with
              | ')' :: restQ =>
                let spE := restQ.takeWhile isSpaceJs
                let arrowLen :=
                  if List.isPrefixOf ['=', '>'] (restQ.drop spE.length)
                  then spE.length + 2 else 0
                let len := kwLen + sp1.length + name.length + sp2.length + 1
                            + sp3.length + aLen + 1 + inner.length + 1 + arrowLen
                some (len, (l.take len, name))
              | _ => none
            | _ => none
          | _ => none

/-- One attempt of the function-declaration regex
`(?:function\s+(id)|(?:const|let)\s+(id)\s*=\s*(?:async\s+)?(?:\([^)]*\)\s*=>|\([^)]*\)))`. -/
def tryMatchFuncAt (l : Chars) : Option (Nat × (Chars × Chars)) :=
  if List.isPrefixOf "function".data l then
    let rest := l.drop 8
    let sp := rest.takeWhile isSpaceJs
    if sp.length = 0 then none
    else
      match rest.drop sp.length with
      | [] => none
      | c :: cs =>
        if isIdentStart c then
          let name := c :: cs.takeWhile isIdentChar
          some (8 + sp.length + name.length, ("function".data ++ sp ++ name, name))
        else none
  else tryMatchFuncAlt2 l

def scanFuncDecls (content : Chars) : List (Nat × (Chars × Chars)) :=
  scanMatches tryMatchFuncAt content

/-- One attempt of the constant regex `const\s+([A-Z][A-Z0-9_]*)\s*=`. -/
def tryMatchConstAt (l : Chars) : Option (Nat × (Chars × Chars)) :=
  if List.isPrefixOf "const".data l then
    let rest := l.drop 5
    let sp := rest.takeWhile isSpaceJs
    if sp.length = 0 then none
    else
      match rest.drop sp.length with
      | [] => none
      | c :: cs =>
        if isUpperAZ c then
          let tail := cs.takeWhile (fun ch => isUpperAZ ch || isDigit09 ch || ch = '_')
          let name := c :: tail
          let rest2 := cs.drop tail.length
          let sp2 := rest2.takeWhile isSpaceJs
          match rest2.drop sp2.length with
          | '=' :: _ =>
            let len := 5 + sp.length + name.length + sp2.length + 1
            some (len, (l.take len, name))
          | _ => none
        else none
  else none

def scanConstDecls (content : Chars) : List (Nat × (Chars × Chars)) :=
  scanMatches tryMatchConstAt content

/-- The three JS quote characters (apostrophe, double quote, backquote). -/
def isQuoteChar (c : Char) : Bool :=
  c = Char.ofNat 39 || c = '"' || c = Char.ofNat 96

/-- The deterministic tail `\s+from\s+['"x60]([^'"x60]+)['"x60]` of the
regex for imports, matched at the head of `l`. Both `\s+` runs are maximal-munch
(their followers are not whitespace), and the quoted body is maximal-munch
(its follower is a quote character). Returns (consumed length, captured path). -/
def matchImportTail (l : Chars) : Option (Nat × Chars) :=
  let sp := l.takeWhile isSpaceJs
  if sp.length = 0 then none
  else
    let r1 := l.drop sp.length
    if List.isPrefixOf "from".data r1 then
      let r2 := r1.drop 4
      let sp2 := r2.takeWhile isSpaceJs
      if sp2.length = 0 then none
      else
        match r2.drop sp2.length with
        | [] => none
        | q :: r3 =>
          if isQuoteChar q then
            let body := r3.takeWhile (fun c => !(isQuoteChar c))
            if body.length = 0 then none
            else
              match r3.drop body.length with
              | [] => none
              | q2 :: _ =>
                if isQuoteChar q2 then
                  some (sp.length + 4 + sp2.length + 1 + body.length + 1, body)
                else none
          else none
    else none

/-- Descending range `[m, m-1, ..., 1]` (greedy backtracking order). -/
def descRange (m : Nat) : List Nat := (List.range m).map (fun t => m - t)

/-- One attempt of `import\s+.*?\s+from\s+['"x60]([^'"x60]+)['"x60]`.
The leading `\s+` is greedy (longest first); the lazy `.*?` grows from the
empty string and may not cross a line terminator. -/
def tryMatchImportAt (l : Chars) : Option (Nat × Chars) :=
  if List.isPrefixOf "import".data l then
    let rest := l.drop 6
    let m := (rest.takeWhile isSpaceJs).length
    if m = 0 then none
    else
      (descRange m).findSome? (fun k =>
        let afterA := rest.drop k
        (List.range (afterA.length + 1)).findSome? (fun j =>
          if (afterA.take j).all isDotChar then
            match matchImportTail (afterA.drop j) with
            | some (tlen, body) => some (6 + k + j + tlen, body)
            | none => none
          else none))
  else none

def scanImports (content : Chars) : List (Nat × Chars) :=
  scanMatches tryMatchImportAt content

/-- Remainder of the list after the first occurrence of the closer of a
block comment (the two characters star slash), if any. -/
def afterFirstClose : Chars → Option Chars
  | [] => none
  | '*' :: '/' :: rest => some rest
  | _ :: rest => afterFirstClose rest

/-- Count of non-overlapping matches of `opener` followed lazily by the
block-comment closer (the regexes `/\*[\s\S]*?\*\//g` and
`/\*\*[\s\S]*?\*\//g`, with `opener` the literal opening delimiter). -/
def countLazyBlock (opener : Chars) : Nat → Chars → Nat
  | 0, _ => 0
  | _ + 1, [] => 0
  | fuel + 1, c :: cs =>
    if List.isPrefixOf opener (c :: cs) then
      match afterFirstClose ((c :: cs).drop opener.length) with
      | some rest2 => 1 + countLazyBlock opener fuel rest2
      | none => countLazyBlock opener fuel cs
    else countLazyBlock opener fuel cs

/-! ## Drift Detector

Embedding of `DriftDetector` (src/analysis/SimpleBestPracticeAnalyzer.js).
The detector reads `this.patterns.recommendations`; only that part of the
learned profile is modelled. The source computes
`relativePath = path.relative(process.cwd(), filePath)`; the working
directory is ambient process state, so the embedding takes the relative
path as an explicit argument. Violation `message` and `suggestion` fields
are display-only strings and are omitted, as are result timestamps and the
never-written `patternMatches` object. -/

namespace DriftDetector

structure NamingRecs where
  -- field named `variables` in the source; renamed (Lean keyword clash)
  vars : Option String
  functions : Option String
  constants : Option String
  files : Option String
  deriving DecidableEq

structure ImportRecs where
  style : Option String
  extensions : Option String
  deriving DecidableEq

structure ArchRecs where
  commonFolders : Option (List String)
  deriving DecidableEq

structure CommentRecs where
  style : Option String
  density : Option String
  deriving DecidableEq

/-- The `recommendations` object of a PatternProfile (absent sections map to
`none`, mirroring `?.` access followed by `|| {}`). -/
structure Recommendations where
  naming : Option NamingRecs
  imports : Option ImportRecs
  architecture : Option ArchRecs
  comments : Option CommentRecs
  deriving DecidableEq

def emptyNaming : NamingRecs := ⟨none, none, none, none⟩
def emptyImports : ImportRecs := ⟨none, none⟩
def emptyArch : ArchRecs := ⟨none⟩
def emptyComments : CommentRecs := ⟨none, none⟩

/-- `getContext` result: surrounding lines attached to a violation. -/
structure DriftContext where
  before : List Chars
  line : Chars
  after : List Chars
  deriving DecidableEq

structure DriftViolation where
  type : String
  category : String
  severity : String
  line : Nat
  column : Int
  rule : String
  expected : Option String := none
  actual : Option String := none
  context : Option DriftContext := none
  deriving DecidableEq

/-- Shape test: first character satisfies `f`, all others satisfy `g`. -/
def firstRest (f g : Char → Bool) : Chars → Bool
  | [] => false
  | c :: cs => f c && cs.all g

/-- `DriftDetector.detectNamingStyle` (the five-style variant with kebab). -/
def detectNamingStyle (name : Chars) : String :=
  if firstRest isLowerAZ (fun c => isAlphaAZ c || isDigit09 c) name
      && name.any isUpperAZ then "camelCase"
  else if firstRest isLowerAZ (fun c => isLowerAZ c || isDigit09 c || c = '_') name
      && name.contains '_' then "snake_case"
  else if firstRest isUpperAZ (fun c => isAlphaAZ c || isDigit09 c) name then "PascalCase"
  else if firstRest isLowerAZ (fun c => isLowerAZ c || isDigit09 c || c = '-') name
      && name.contains '-' then "kebab-case"
  else if firstRest isUpperAZ (fun c => isUpperAZ c || isDigit09 c || c = '_') name
      then "UPPER_CASE"
  else "unknown"

/-- File-name part of `analyzeNamingDrift`. -/
def analyzeFileNaming (filePath : Chars) (recs : NamingRecs) : List DriftViolation :=
  if truthy recs.files then
    let expected := recs.files.getD ""
    let fileName := basenameExt filePath (extname filePath)
    let actual := detectNamingStyle fileName
    if actual != expected && actual != "unknown" then
      [{ type := "naming_drift", category := "file_naming", severity := "medium",
         line := 1, column := 1, rule := "consistent_file_naming",
         expected := some expected, actual := some actual }]
    else []
  else []

def analyzeVariableNaming (content : Chars) (recs : NamingRecs) : List DriftViolation :=
  if !(truthy recs.vars) then []
  else
    let expected := recs.vars.getD ""
    (scanVarDecls content).filterMap (fun m =>
      let actual := detectNamingStyle m.snd.snd
      if actual != expected && actual != "unknown" then
        some { type := "naming_drift", category := "variable_naming", severity := "low",
               line := getLineNumber content m.fst, column := columnAt content m.fst,
               rule := "consistent_variable_naming",
               expected := some expected, actual := some actual }
      else none)

def analyzeFunctionNaming (content : Chars) (recs : NamingRecs) : List DriftViolation :=
  if !(truthy recs.functions) then []
  else
    let expected := recs.functions.getD ""
    (scanFuncDecls content).filterMap (fun m =>
      let actual := detectNamingStyle m.snd.snd
      if actual != expected && actual != "unknown" then
        some { type := "naming_drift", category := "function_naming", severity := "low",
               line := getLineNumber content m.fst, column := columnAt content m.fst,
               rule := "consistent_function_naming",
               expected := some expected, actual := some actual }
      else none)

def analyzeConstantNaming (content : Chars) (recs : NamingRecs) : List DriftViolation :=
  if !(truthy recs.constants) then []
  else
    let expected := recs.constants.getD ""
    (scanConstDecls content).filterMap (fun m =>
      let actual := detectNamingStyle m.snd.snd
      if actual != expected && expected = "UPPER_CASE" then
        some { type := "naming_drift", category := "constant_naming", severity := "low",
               line := getLineNumber content m.fst, column := columnAt content m.fst,
               rule := "consistent_constant_naming",
               expected := some expected, actual := some actual }
      else none)

/-- `analyzeNamingDrift`: file name first, then variables, functions, constants
(the order the source pushes violations). -/
def analyzeNamingDrift (content filePath : Chars) (P : Recommendations) : List DriftViolation :=
  let recs := P.naming.getD emptyNaming
  analyzeFileNaming filePath recs ++ analyzeVariableNaming content recs
    ++ analyzeFunctionNaming content recs ++ analyzeConstantNaming content recs

def isInternalImport (importPath : Chars) : Bool :=
  List.isPrefixOf ['@'] importPath || List.isPrefixOf ['.'] importPath

def isDiscouragedLibrary (importPath : Chars) : Bool :=
  ["eval", "vm", "child_process"].any (fun lib => isSubstring lib.data importPath)

/-- Per-import-statement checks of `analyzeImportDrift` (style, extensions,
discouraged library — in source push order). -/
def importChecksAt (content : Chars) (recs : ImportRecs) (idx : Nat)
    (importPath : Chars) : List DriftViolation :=
  let lineNum := getLineNumber content idx
  let col := columnAt content idx
  let styleV :=
    if truthy recs.style then
      let expected := recs.style.getD ""
      let isRelative := List.isPrefixOf ['.'] importPath
      if isRelative && expected = "absolute" then
        [{ type := "import_drift", category := "import_style", severity := "low",
           line := lineNum, column := col, rule := "consistent_import_style",
           expected := some expected, actual := some "relative" }]
      else if !isRelative && expected = "relative" && isInternalImport importPath then
        [{ type := "import_drift", category := "import_style", severity := "low",
           line := lineNum, column := col, rule := "consistent_import_style",
           expected := some expected, actual := some "absolute" }]
      else []
    else []
  let extV :=
    if truthy recs.extensions then
      let expected := recs.extensions.getD ""
      let actual := if extname importPath ≠ [] then "explicit" else "implicit"
      if actual ≠ expected then
        [{ type := "import_drift", category := "import_extensions", severity := "info",
           line := lineNum, column := col, rule := "consistent_import_extensions",
           expected := some expected, actual := some actual }]
      else []
    else []
  let discV :=
    if isDiscouragedLibrary importPath then
      [{ type := "import_drift", category := "discouraged_library", severity := "high",
         line := lineNum, column := col, rule := "discouraged_library_usage" }]
    else []
  styleV ++ extV ++ discV

def analyzeImportDrift (content : Chars) (P : Recommendations) : List DriftViolation :=
  let recs := P.imports.getD emptyImports
  List.flatten ((scanImports content).map (fun m => importChecksAt content recs m.fst m.snd))

def analyzeArchitectureDrift (relativePath : Chars) (P : Recommendations) : List DriftViolation :=
  let recs := P.architecture.getD emptyArch
  match recs.commonFolders with
  | none => []
  | some folders =>
    let isInCommonFolder := folders.any (fun f => isSubstring f.data relativePath)
    if !isInCommonFolder && folders.length > 0 then
      [{ type := "architecture_drift", category := "folder_structure", severity := "info",
         line := 1, column := 1, rule := "consistent_folder_structure",
         expected := some ("One of: " ++ String.intercalate ", " folders),
         actual := some (String.intercalate "/"
           (((splitOnChar '/' relativePath).dropLast).map String.mk)) }]
    else []

structure CommentAnalysis where
  dominantStyle : String
  density : String
  single : Nat
  multi : Nat
  jsdoc : Nat
  deriving DecidableEq

/-- `analyzeComments`: counts of the three comment regexes, the dominant
style, and the bucketed density `total / lines`. -/
def analyzeComments (content : Chars) : CommentAnalysis :=
  let single := List.countP (fun seg => isSubstring ['/', '/'] seg) (splitOnLineTerms content)
  let multi := countLazyBlock ['/', '*'] content.length content
  let jsdoc := countLazyBlock ['/', '*', '*'] content.length content
  let total := single + multi + jsdoc
  let lines := (splitOnChar '\n' content).length
  let density : ℚ := (total : ℚ) / (lines : ℚ)
  let dominantStyle :=
    if jsdoc ≥ single && jsdoc ≥ multi then "jsdoc"
    else if multi ≥ single then "multi"
    else "single"
  let densityLevel :=
    if density > 1/5 then "high"
    else if density > 1/10 then "medium"
    else if density > 1/20 then "low"
    else "none"
  ⟨dominantStyle, densityLevel, single, multi, jsdoc⟩

/-- The severity map for a comment-density mismatch, keyed on the expected
density (`|| INFO` default). -/
def densitySeverity (expectedDensity : String) : String :=
  if expectedDensity = "none" then "high"
  else if expectedDensity = "low" then "medium"
  else if expectedDensity = "medium" then "low"
  else if expectedDensity = "high" then "info"
  else "info"

def analyzeCommentDrift (content : Chars) (P : Recommendations) : List DriftViolation :=
  let recs := P.comments.getD emptyComments
  if truthy recs.style && truthy recs.density then
    let ca := analyzeComments content
    let expectedStyle := recs.style.getD ""
    let expectedDensity := recs.density.getD ""
    let styleV :=
      if ca.dominantStyle ≠ expectedStyle then
        [{ type := "comment_drift", category := "comment_style", severity := "info",
           line := 1, column := 1, rule := "consistent_comment_style",
           expected := some expectedStyle, actual := some ca.dominantStyle }]
      else []
    let densV :=
      if ca.density ≠ expectedDensity then
        [{ type := "comment_drift", category := "comment_density",
           severity := densitySeverity expectedDensity,
           line := 1, column := 1, rule := "consistent_comment_density",
           expected := some expectedDensity, actual := some ca.density }]
      else []
    styleV ++ densV
  else []

/-- `severityWeights` lookup with the JS `|| 0` default for unknown severities. -/
def severityWeights (s : String) : ℚ :=
  if s = "critical" then 10
  else if s = "high" then 5
  else if s = "medium" then 3
  else if s = "low" then 1
  else if s = "info" then 1/2
  else 0

/-- `calculateComplianceScore`: weighted sum, doubled, capped at 100,
subtracted from 100, floored at 0. -/
def calculateComplianceScore (violations : List DriftViolation) : ℚ :=
  let totalWeight := violations.foldl (fun sum v => sum + severityWeights v.severity) 0
  let maxPenalty : ℚ := 100
  let penalty := minQ (totalWeight * 2) maxPenalty
  maxQ 0 (100 - penalty)

/-- `getContext(lines, lineNum, contextSize)`. -/
def getContext (lines : List Chars) (lineNum contextSize : Nat) : DriftContext :=
  let start := lineNum - contextSize - 1
  let stop := minN lines.length (lineNum + contextSize)
  ⟨jsSlice lines start (lineNum - 1), lines.getD (lineNum - 1) [], jsSlice lines lineNum stop⟩

structure Suggestion where
  type : String
  category : String
  affectedLines : List Nat
  priority : String
  deriving DecidableEq

def violationKey (v : DriftViolation) : String := v.type ++ "_" ++ v.category

/-- Group keys in first-encounter order (JS object key insertion order). -/
def groupKeys (vs : List DriftViolation) : List String :=
  vs.foldl (fun ks v => if ks.contains (violationKey v) then ks else ks ++ [violationKey v]) []

/-- `generateSuggestions`: one bulk-fix suggestion per `(type, category)`
group with more than one member. -/
def generateSuggestions (vs : List DriftViolation) : List Suggestion :=
  (groupKeys vs).filterMap (fun k =>
    match vs.filter (fun v => violationKey v == k) with
    | [] => none
    | v :: rest =>
      if rest.length + 1 > 1 then
        some { type := "bulk_fix", category := k,
               affectedLines := (v :: rest).map (fun w => w.line), priority := v.severity }
      else none)

structure FileDriftResult where
  file : Chars
  complianceScore : ℚ
  violations : List DriftViolation
  suggestions : List Suggestion
  deriving DecidableEq

/-- The four analyses of `analyzeDriftInFile`, concatenated in call order. -/
def collectViolations (filePath relativePath content : Chars)
    (P : Recommendations) : List DriftViolation :=
  analyzeNamingDrift content filePath P ++ analyzeImportDrift content P
    ++ analyzeArchitectureDrift relativePath P ++ analyzeCommentDrift content P

/-- `analyzeDriftInFile`: collect violations, score them, filter info-level
findings unless `includeInfo`, attach context, derive suggestions. The
`threshold` option is accepted and unused, exactly as in the source. -/
def analyzeDriftInFile (filePath relativePath content : Chars) (P : Recommendations)
    (threshold : ℚ) (contextSize : Nat) (includeInfo : Bool) : FileDriftResult :=
  let _ := threshold
  let lines := splitOnChar '\n' content
  let collected := collectViolations filePath relativePath content P
  let score := calculateComplianceScore collected
  let kept := if includeInfo then collected
              else collected.filter (fun v => v.severity != "info")
  let withCtx := kept.map (fun v =>
    { v with context := some (getContext lines v.line contextSize) })
  { file := filePath, complianceScore := score, violations := withCtx,
    suggestions := generateSuggestions withCtx }

end DriftDetector

/-- JS `a || b` on an optional string (empty strings are falsy). -/
def jsOrStr (o : Option String) (d : String) : String :=
  match o with
  | some s => if s ≠ "" then s else d
  | none => d

/-! ## Rule Engine

Embedding of `RuleEngine` (src/governance/RuleEngine.js). The engine state
is the `rules` map (insertion-ordered) and the key set of the `exceptions`
map (only `Map.has` is ever consulted on it). As for the drift detector,
`path.relative(process.cwd(), filePath)` is ambient-state-dependent, so
`applyRules`/`executeRule` take the relative path directly. Display-only
`message` strings, the `ruleHistory` audit list, and stored-but-unread
`metadata`/`global` engine fields are omitted. -/

namespace RuleEngine

structure Params where
  message : Option String
  wrapperName : Option String
  deriving DecidableEq

def emptyParams : Params := ⟨none, none⟩

/-- In-memory resolved rule (`processRuleCategory` output). -/
structure Rule where
  id : String
  category : String
  name : String
  description : String
  severity : String
  enabled : Bool
  parameters : Params
  deriving DecidableEq

/-- Per-rule entry of a configuration file. -/
structure RuleConfigEntry where
  name : Option String
  description : Option String
  severity : Option String
  enabled : Option Bool
  parameters : Option Params
  deriving DecidableEq

structure CategoryRules where
  enabled : Bool
  rules : Option (List (String × RuleConfigEntry))
  deriving DecidableEq

structure ExceptionEntry where
  file : Option String
  rule : Option String
  deriving DecidableEq

/-- Config metadata; the `created` timestamp is environment-dependent and
omitted. -/
structure Metadata where
  version : Option String
  name : Option String
  description : Option String
  author : Option String
  deriving DecidableEq

structure GlobalSettings where
  severity : Option String
  autofix : Option Bool
  deriving DecidableEq

structure RuleConfig where
  metadata : Option Metadata
  global : Option GlobalSettings
  rules : Option (List (String × CategoryRules))
  exceptions : Option (List ExceptionEntry)
  deriving DecidableEq

/-- `validateConfiguration`: required sections and metadata fields; unknown
categories are only warned about (no effect). -/
def validateConfiguration (config : RuleConfig) : Except String Unit :=
  if config.metadata.isNone then .error "Missing required section: metadata"
  else if config.rules.isNone then .error "Missing required section: rules"
  else
    let md := config.metadata.getD ⟨none, none, none, none⟩
    if !(truthy md.version) then .error "Missing required metadata field: version"
    else if !(truthy md.name) then .error "Missing required metadata field: name"
    else .ok ()

structure RuleEngineState where
  rules : List (String × Rule)
  exceptions : List String
  deriving DecidableEq

/-- Engine state right after the constructor. -/
def initialState : RuleEngineState := ⟨[], []⟩

/-- JS `Map.set`: overwrite in place or append. -/
def mapSet (m : List (String × α)) (k : String) (v : α) : List (String × α) :=
  if m.any (fun p => p.fst == k) then
    m.map (fun p => if p.fst == k then (k, v) else p)
  else m ++ [(k, v)]

def processRuleCategory (st : RuleEngineState) (category : String)
    (categoryRules : CategoryRules) : RuleEngineState :=
  if !categoryRules.enabled then st
  else
    (categoryRules.rules.getD []).foldl (fun s entry =>
      let fullRuleId := category ++ "/" ++ entry.fst
      let rc := entry.snd
      let rule : Rule :=
        { id := fullRuleId, category := category,
          name := jsOrStr rc.name entry.fst,
          description := jsOrStr rc.description "",
          severity := jsOrStr rc.severity "medium",
          enabled := rc.enabled ≠ some false,
          parameters := rc.parameters.getD emptyParams }
      { s with rules := mapSet s.rules fullRuleId rule }) st

def processExceptions (st : RuleEngineState) (exceptions : List ExceptionEntry) :
    RuleEngineState :=
  exceptions.foldl (fun s e =>
    let key := jsOrStr e.file "*" ++ ":" ++ jsOrStr e.rule "*"
    { s with exceptions :=
        if s.exceptions.contains key then s.exceptions else s.exceptions ++ [key] }) st

/-- `processConfiguration` (rule-history bookkeeping omitted). -/
def processConfiguration (st : RuleEngineState) (config : RuleConfig) : RuleEngineState :=
  let st1 := (config.rules.getD []).foldl
    (fun s entry => processRuleCategory s entry.fst entry.snd) st
  match config.exceptions with
  | some exs => processExceptions st1 exs
  | none => st1

/-- `RuleEngine.detectNamingStyle` (four styles, no kebab). -/
def detectNamingStyle (name : Chars) : String :=
  if DriftDetector.firstRest isLowerAZ (fun c => isAlphaAZ c || isDigit09 c) name
      && name.any isUpperAZ then "camelCase"
  else if DriftDetector.firstRest isLowerAZ
      (fun c => isLowerAZ c || isDigit09 c || c = '_') name
      && name.contains '_' then "snake_case"
  else if DriftDetector.firstRest isUpperAZ
      (fun c => isAlphaAZ c || isDigit09 c) name then "PascalCase"
  else if DriftDetector.firstRest isUpperAZ
      (fun c => isUpperAZ c || isDigit09 c || c = '_') name then "UPPER_CASE"
  else "unknown"

def followsFeatureFolderStructure (relativePath : Chars) : Bool :=
  (splitOnChar '/' relativePath).length ≥ 2

/-- `hasException`: any of the four wildcard keys present. -/
def hasException (st : RuleEngineState) (filePath ruleId : String) : Bool :=
  [filePath ++ ":" ++ ruleId, filePath ++ ":*", "*:" ++ ruleId, "*:*"].any
    (fun key => st.exceptions.contains key)

structure RuleViolation where
  ruleId : String
  severity : String
  file : String
  line : Nat
  category : String
  deriving DecidableEq

/-- `executeRule`: the string-keyed switch over built-in rule evaluators. -/
def executeRule (rule : Rule) (relativePath : String) (content : Chars)
    (learnedPatterns : Option DriftDetector.Recommendations) : List RuleViolation :=
  if rule.id = "security/no-eval" then
    if isSubstring "eval(".data content then
      [{ ruleId := rule.id, severity := rule.severity, file := relativePath,
         line := getLineNumber content (indexOfSub content "eval(".data).toNat,
         category := rule.category }]
    else []
  else if rule.id = "security/no-dangerous-html" then
    ["innerHTML", "outerHTML"].filterMap (fun pat =>
      if isSubstring pat.data content then
        some { ruleId := rule.id, severity := rule.severity, file := relativePath,
               line := getLineNumber content (indexOfSub content pat.data).toNat,
               category := rule.category }
      else none)
  else if rule.id = "security/require-company-fetch" then
    let wrapper := jsOrStr rule.parameters.wrapperName "companyFetch"
    if isSubstring "fetch(".data content && !(isSubstring wrapper.data content) then
      [{ ruleId := rule.id, severity := rule.severity, file := relativePath,
         line := getLineNumber content (indexOfSub content "fetch(".data).toNat,
         category := rule.category }]
    else []
  else if rule.id = "performance/no-sync-fs" then
    ["readFileSync", "writeFileSync", "statSync"].filterMap (fun pat =>
      if isSubstring pat.data content then
        some { ruleId := rule.id, severity := rule.severity, file := relativePath,
               line := getLineNumber content (indexOfSub content pat.data).toNat,
               category := rule.category }
      else none)
  else if rule.id = "architecture/feature-folder-structure" then
    if !(followsFeatureFolderStructure relativePath.data) then
      [{ ruleId := rule.id, severity := rule.severity, file := relativePath,
         line := 1, category := rule.category }]
    else []
  else if rule.id = "naming/camelcase-variables" then
    if (learnedPatterns.bind (fun lp => lp.naming.bind (fun n => n.vars)))
        = some "camelCase" then
      (scanVarDecls content).filterMap (fun m =>
        if detectNamingStyle m.snd.snd ≠ "camelCase" then
          some { ruleId := rule.id, severity := rule.severity, file := relativePath,
                 line := getLineNumber content (indexOfSub content m.snd.fst).toNat,
                 category := rule.category }
        else none)
    else []
  else []

/-- `applyRules`: iterate the rule registry in insertion order, skipping
disabled or excepted rules; the per-rule try/catch is a no-op for the pure
embedded evaluators. -/
def applyRules (st : RuleEngineState) (relativePath : String) (content : Chars)
    (learnedPatterns : Option DriftDetector.Recommendations) : List RuleViolation :=
  st.rules.foldl (fun violations entry =>
    if !entry.snd.enabled || hasException st relativePath entry.fst then violations
    else violations ++ executeRule entry.snd relativePath content learnedPatterns) []

/-- `getDefaultConfiguration` (timestamp omitted). -/
def getDefaultConfiguration : RuleConfig :=
  { metadata := some
      { version := some "1.0.0", name := some "Default ManasX Rules",
        description := some "Default organizational rules for code governance",
        author := some "ManasX" },
    global := some { severity := some "medium", autofix := some false },
    rules := some
      [("security",
        { enabled := true,
          rules := some [("no-eval",
            { name := some "No eval() usage",
              description := some "Prohibits the use of eval() function",
              severity := some "critical", enabled := some true,
              parameters := none })] }),
       ("performance",
        { enabled := true,
          rules := some [("no-sync-fs",
            { name := some "No synchronous file operations",
              description := some "Prohibits synchronous file system operations",
              severity := some "high", enabled := some true,
              parameters := none })] })],
    exceptions := some [] }

/-- A thrown JS error: either one carrying a `code` property (Node fs
errors) or a plain `Error` whose `code` is `undefined`. -/
inductive JsError where
  | withCode (code msg : String)
  | plain (msg : String)
  deriving DecidableEq

/-- Outcome of `fs.readFile` + `JSON.parse` on a path. -/
inductive ReadOutcome where
  | enoent
  | parseFail
  | ok (config : RuleConfig)

/-- The filesystem as seen by `loadRules`: which paths `fs.access` accepts,
and what reading+parsing a path yields. Keeping the two separate models the
two distinct syscalls (they can disagree under concurrent modification). -/
structure FileSystem where
  accessible : List String
  read : String → ReadOutcome

def joinPath (dirs : List String) (fileName : String) : String :=
  "/" ++ String.intercalate "/" (dirs ++ [fileName])

/-- `findConfigFile`: walk from the working directory upward; the loop stops
when the directory equals its parent, so the filesystem root itself is never
probed; not found throws a plain `Error` (no `code` property). -/
def findConfigFileAux (fs : FileSystem) (fileName : String) :
    Nat → List String → Except JsError String
  | _, [] => .error (.plain ("Configuration file " ++ fileName ++ " not found"))
  | 0, _ => .error (.plain ("Configuration file " ++ fileName ++ " not found"))
  | fuel + 1, d :: ds =>
    let configPath := joinPath (d :: ds) fileName
    if fs.accessible.contains configPath then .ok configPath
    else findConfigFileAux fs fileName fuel (d :: ds).dropLast

def findConfigFile (fs : FileSystem) (cwd : List String) (fileName : String) :
    Except JsError String :=
  findConfigFileAux fs fileName cwd.length cwd

/-- The catch block of `loadRules`: only an error whose `code` property is
the string ENOENT falls back to the default configuration; any other error
is rethrown. -/
def catchHandler (e : JsError) : Except JsError RuleConfig :=
  match e with
  | .withCode code _ => if code = "ENOENT" then .ok getDefaultConfiguration else .error e
  | .plain _ => .error e

/-- `loadRules`: resolve, read, parse, validate, process; errors flow to
`catchHandler`. Returns the engine state alongside the JS return/throw. -/
def loadRules (fs : FileSystem) (cwd : List String) (st : RuleEngineState)
    (configPath : String) : RuleEngineState × Except JsError RuleConfig :=
  match findConfigFile fs cwd configPath with
  | .error e => (st, catchHandler e)
  | .ok resolvedPath =>
    match fs.read resolvedPath with
    | .enoent => (st, catchHandler (.withCode "ENOENT" resolvedPath))
    | .parseFail => (st, catchHandler (.plain "Unexpected token in JSON"))
    | .ok config =>
      match validateConfiguration config with
      | .error m => (st, catchHandler (.plain m))
      | .ok _ => (processConfiguration st config, .ok config)

end RuleEngine

/-! ## Pattern Learner

Embedding of the confidence computation of `PatternLearner`
(src/governance/PatternLearner.js). `patterns.architecture.fileTypes` is a
JS `Map` updated once per successfully analyzed file with the file's
extension. -/

namespace PatternLearner

abbrev JsMap := List (String × Nat)

/-- `map.set(k, (map.get(k) || 0) + 1)`. -/
def mapIncrement (m : JsMap) (k : String) : JsMap :=
  if m.any (fun p => p.fst == k) then
    m.map (fun p => if p.fst == k then (p.fst, p.snd + 1) else p)
  else m ++ [(k, 1)]

/-- `Object.values` applied to a JS `Map` instance. A `Map` keeps its entries
in internal slots, not as own enumerable properties, so for every `Map` this
is the empty array — regardless of the entries. -/
def objectValuesOfMap (m : JsMap) : List Nat :=
  let _ := m
  []

/-- `calculateConfidence`: reduces `Object.values(fileTypes)` to a total and
buckets it. -/
def calculateConfidence (fileTypes : JsMap) : String :=
  let totalFiles := (objectValuesOfMap fileTypes).foldl (fun sum count => sum + count) 0
  if totalFiles < 10 then "low"
  else if totalFiles < 50 then "medium"
  else "high"

/-- The `fileTypes` update performed by `analyzeArchitecturePatterns` for one
analyzed file. -/
def recordFileType (fileTypes : JsMap) (filePath : Chars) : JsMap :=
  mapIncrement fileTypes (String.mk (extname filePath))

/-- The `fileTypes` histogram after a learning pass over the given readable
files (each analyzed file contributes exactly one increment). -/
def learnFileTypes (files : List Chars) : JsMap :=
  files.foldl recordFileType []

end PatternLearner

/-! ## Continuous Monitor

Embedding of `ContinuousMonitor.analyzeFile`
(src/monitor/ContinuousMonitor.js). The collaborating components — AI
detector, AI auditor, drift detector, rule engine — are suspension points
whose outcomes for the file under analysis are supplied by an environment
record (`Except.error` models a thrown exception). The violation element
type is a parameter `α` since drift and rule violations have different
shapes and the monitor only concatenates and counts them. Insight strings
are display text interpolating scores, so only their count is modelled;
log/display writes are side effects outside the state. -/

namespace ContinuousMonitor

structure MonitorStats where
  filesWatched : Nat
  changesDetected : Nat
  violationsFound : Nat
  aiCodeDetected : Nat
  deriving DecidableEq

structure AIDetectResult where
  isLikelyAI : Bool
  confidence : ℚ
  indicators : List String
  recommendation : String
  deriving DecidableEq

/-- The trimmed `analysis.aiDetection` record (top three indicators). -/
structure AIDetectionSummary where
  isLikelyAI : Bool
  confidence : ℚ
  indicators : List String
  recommendation : String
  deriving DecidableEq

structure AuditResult (α : Type) where
  violations : List α
  recommendations : List String
  deriving DecidableEq

structure DriftResultM (α : Type) where
  complianceScore : ℚ
  violations : List α
  deriving DecidableEq

/-- The per-event `AnalysisResult` (timestamp omitted; insights counted). -/
structure Analysis (α : Type) where
  file : String
  violations : List α
  insights : Nat
  aiDetection : Option AIDetectionSummary
  driftScore : Option ℚ
  recommendations : List String
  deriving DecidableEq

/-- Everything `analyzeFile` consults for one file-change event. -/
structure AnalyzeEnv (α : Type) where
  fileExists : Bool
  shouldWatchFile : Bool
  readFile : Except String Unit
  relativePath : String
  enableAIDetection : Bool
  enableDriftDetection : Bool
  enableRuleChecking : Bool
  hasDriftDetector : Bool
  hasOrganizationalRules : Bool
  detectAICode : Except String AIDetectResult
  auditAICode : Except String (AuditResult α)
  detectDrift : Except String (DriftResultM α)
  applyRules : Except String (List α)

/-- The freshly initialized `analysis` record built at the top of
`analyzeFile`, before any stage runs. -/
def initialAnalysis (env : AnalyzeEnv α) : Analysis α :=
  { file := env.relativePath, violations := [], insights := 0,
    aiDetection := none, driftScore := none, recommendations := [] }

/-- Stage 1 of `analyzeFile` (AI detection and, when flagged, the AI audit):
a throw in either call surfaces as `Except.error` carrying the stats
accumulated so far. -/
def stage1 (env : AnalyzeEnv α) (s1 : MonitorStats) (a0 : Analysis α) :
    Except MonitorStats (MonitorStats × Analysis α) :=
  if env.enableAIDetection then
    match env.detectAICode with
    | .error _ => .error s1
    | .ok r =>
      let summary : AIDetectionSummary :=
        ⟨r.isLikelyAI, r.confidence, r.indicators.take 3, r.recommendation⟩
      let a1 := { a0 with aiDetection := some summary }
      if r.isLikelyAI then
        let s2 := { s1 with aiCodeDetected := s1.aiCodeDetected + 1 }
        let a2 := { a1 with insights := a1.insights + 1 }
        match env.auditAICode with
        | .error _ => .error s2
        | .ok au => .ok (s2,
            { a2 with violations := a2.violations ++ au.violations,
                      recommendations := a2.recommendations ++ au.recommendations })
      else .ok (s1, a1)
  else .ok (s1, a0)

/-- Stage 2 of `analyzeFile` (drift detection); stats pass through
unchanged, a throw keeps them as they stood when the stage began. -/
def stage2 (env : AnalyzeEnv α)
    (prev : Except MonitorStats (MonitorStats × Analysis α)) :
    Except MonitorStats (MonitorStats × Analysis α) :=
  match prev with
  | .error s => .error s
  | .ok (s, a) =>
    if env.enableDriftDetection && env.hasDriftDetector then
      match env.detectDrift with
      | .error _ => .error s
      | .ok d =>
        let a1 := { a with driftScore := some d.complianceScore,
                           violations := a.violations ++ d.violations }
        let a2 := if d.complianceScore < 80
                  then { a1 with insights := a1.insights + 1 } else a1
        .ok (s, a2)
    else .ok (s, a)

/-- Stage 3 of `analyzeFile` (rule checking). -/
def stage3 (env : AnalyzeEnv α)
    (prev : Except MonitorStats (MonitorStats × Analysis α)) :
    Except MonitorStats (MonitorStats × Analysis α) :=
  match prev with
  | .error s => .error s
  | .ok (s, a) =>
    if env.enableRuleChecking && env.hasOrganizationalRules then
      match env.applyRules with
      | .error _ => .error s
      | .ok vs => .ok (s, { a with violations := a.violations ++ vs })
    else .ok (s, a)

/-- `analyzeFile`: the whole body sits in one try/catch; a throw anywhere
lands in the catch, which logs a warning and returns, keeping whatever stats
increments already happened and discarding the partial analysis. -/
def analyzeFile (env : AnalyzeEnv α) (stats : MonitorStats) :
    MonitorStats × Option (Analysis α) :=
  if !env.fileExists || !env.shouldWatchFile then (stats, none)
  else
    match env.readFile with
    | .error _ => (stats, none)
    | .ok _ =>
      let s1 := { stats with changesDetected := stats.changesDetected + 1 }
      match stage3 env (stage2 env (stage1 env s1 (initialAnalysis env))) with
      | .error s => (s, none)
      | .ok (s, a) =>
        ({ s with violationsFound := s.violationsFound + a.violations.length }, some a)

end ContinuousMonitor

end ManasX

/-! ## Claims -/

open ManasX

/-- The executable rational minimum agrees with the order-theoretic one. -/
theorem minQ_eq_min (a b : ℚ) : minQ a b = min a b := by
  by_cases h : a ≤ b <;> simp [minQ, min_def, h]

/-- The executable rational maximum agrees with the order-theoretic one. -/
theorem maxQ_eq_max (a b : ℚ) : maxQ a b = max a b := by
  by_cases h : a ≤ b <;> simp [maxQ, max_def, h]

/-- Folding `+ f v` over a list from `init` is `init` plus the mapped sum. -/
theorem foldl_add_map_sum (f : α → ℚ) (l : List α) (init : ℚ) :
    l.foldl (fun s v => s + f v) init = init + (l.map f).sum := by
  induction l generalizing init with
  | nil => simp
  | cons a t ih => simp [ih, add_assoc]

/-- Every severity weight of the drift detector is nonnegative. -/
theorem severityWeights_nonneg (s : String) : 0 ≤ DriftDetector.severityWeights s := by
  unfold DriftDetector.severityWeights
  split_ifs <;> norm_num

/-- Mapped sums agree when the functions agree on the list. -/
theorem map_sum_congr (f g : α → ℚ) (l : List α) (h : ∀ x ∈ l, f x = g x) :
    (l.map f).sum = (l.map g).sum := by
  induction l with
  | nil => simp
  | cons a t ih =>
    simp only [List.map_cons, List.sum_cons]
    rw [h a (List.mem_cons_self a t), ih (fun x hx => h x (List.mem_cons_of_mem a hx))]

/-- The severity weight table exactly as the specification words it
(critical=10, high=5, medium=3, low=1, info=0.5). -/
def specSeverityWeight (s : String) : ℚ :=
  if s = "critical" then 10
  else if s = "high" then 5
  else if s = "medium" then 3
  else if s = "low" then 1
  else if s = "info" then 1/2
  else 0

/-- C1. For every list of violations whose severities are among the five
canonical levels, the Drift Detector compliance score equals
`max(0, 100 - min(2*W, 100))` with `W` the sum of the specification's
per-violation severity weights. -/
theorem C1_compliance_score_formula (vs : List DriftDetector.DriftViolation)
    (h : ∀ v ∈ vs, v.severity ∈ ["critical", "high", "medium", "low", "info"]) :
    DriftDetector.calculateComplianceScore vs =
      max 0 (100 - min (2 * ((vs.map (fun v => specSeverityWeight v.severity)).sum)) 100) := by
  unfold DriftDetector.calculateComplianceScore
  rw [maxQ_eq_max, minQ_eq_min, foldl_add_map_sum, zero_add]
  have hw : (vs.map (fun v => DriftDetector.severityWeights v.severity)).sum
      = (vs.map (fun v => specSeverityWeight v.severity)).sum := by
    apply map_sum_congr
    intro v hv
    have hs := h v hv
    simp only [List.mem_cons, List.not_mem_nil, or_false] at hs
    rcases hs with h1 | h1 | h1 | h1 | h1 <;>
      simp [DriftDetector.severityWeights, specSeverityWeight, h1]
  rw [hw, mul_comm]

/-- C1 witness: concrete evaluation on a two-violation list. -/
theorem C1_compliance_score_formula_witness :
    (∀ v ∈ ([⟨"x", "y", "critical", 1, 1, "r", none, none, none⟩,
             ⟨"x", "y", "info", 2, 1, "r", none, none, none⟩] :
        List DriftDetector.DriftViolation),
      v.severity ∈ ["critical", "high", "medium", "low", "info"]) ∧
    DriftDetector.calculateComplianceScore
        [⟨"x", "y", "critical", 1, 1, "r", none, none, none⟩,
         ⟨"x", "y", "info", 2, 1, "r", none, none, none⟩] =
      max 0 (100 - min (2 * ((([⟨"x", "y", "critical", 1, 1, "r", none, none, none⟩,
             ⟨"x", "y", "info", 2, 1, "r", none, none, none⟩] :
        List DriftDetector.DriftViolation).map
          (fun v => specSeverityWeight v.severity)).sum)) 100) :=
  ⟨by decide, C1_compliance_score_formula _ (by decide)⟩

/-- C8. The compliance score always lies in [0, 100], and appending any
violation never increases it. -/
theorem C8_score_bounded_and_monotone (vs : List DriftDetector.DriftViolation)
    (v : DriftDetector.DriftViolation) :
    0 ≤ DriftDetector.calculateComplianceScore vs ∧
    DriftDetector.calculateComplianceScore vs ≤ 100 ∧
    DriftDetector.calculateComplianceScore (vs ++ [v]) ≤
      DriftDetector.calculateComplianceScore vs := by
  have total_nonneg : ∀ l : List DriftDetector.DriftViolation,
      0 ≤ (l.map (fun w => DriftDetector.severityWeights w.severity)).sum := by
    intro l
    apply List.sum_nonneg
    intro x hx
    obtain ⟨w, _, rfl⟩ := List.mem_map.mp hx
    exact severityWeights_nonneg _
  unfold DriftDetector.calculateComplianceScore
  rw [maxQ_eq_max, maxQ_eq_max, minQ_eq_min, minQ_eq_min,
    foldl_add_map_sum, foldl_add_map_sum, zero_add, zero_add]
  refine ⟨le_max_left _ _, ?_, ?_⟩
  · apply max_le (by norm_num)
    have : 0 ≤ min ((vs.map (fun w => DriftDetector.severityWeights w.severity)).sum * 2)
        (100 : ℚ) := le_min (by nlinarith [total_nonneg vs]) (by norm_num)
    linarith
  · apply max_le_max (le_refl (0 : ℚ))
    apply sub_le_sub_left
    apply min_le_min _ (le_refl (100 : ℚ))
    have hv := severityWeights_nonneg v.severity
    simp only [List.map_append, List.sum_append, List.map_cons, List.map_nil,
      List.sum_cons, List.sum_nil]
    nlinarith

/-- C5 counterexample profile: a learned-shaped profile recommending
single-line comments at high density; all other sections absent. -/
def infoOnlyProfile : DriftDetector.Recommendations :=
  ⟨none, none, none, some ⟨some "single", some "high"⟩⟩

/-- Comment statistics of an empty file: no comments, one line, zero
density, dominant style jsdoc (all counters tie at zero). -/
theorem analyzeComments_nil :
    DriftDetector.analyzeComments [] = ⟨"jsdoc", "none", 0, 0, 0⟩ := by
  have h1 : List.countP (fun seg => isSubstring ['/', '/'] seg) (splitOnLineTerms []) = 0 := rfl
  have h2 : countLazyBlock ['/', '*'] 0 [] = 0 := rfl
  have h3 : countLazyBlock ['/', '*', '*'] 0 [] = 0 := rfl
  have h4 : (splitOnChar (Char.ofNat 10) ([] : Chars)).length = 1 := rfl
  unfold DriftDetector.analyzeComments
  simp only [List.length_nil, h1, h2, h3, h4]
  norm_num

/-- Comment drift of an empty file against `infoOnlyProfile`: two info-level
violations (style mismatch and density mismatch). -/
theorem commentDrift_infoOnly :
    DriftDetector.analyzeCommentDrift [] infoOnlyProfile =
      [⟨"comment_drift", "comment_style", "info", 1, 1, "consistent_comment_style",
        some "single", some "jsdoc", none⟩,
       ⟨"comment_drift", "comment_density", "info", 1, 1, "consistent_comment_density",
        some "high", some "none", none⟩] := by
  simp [DriftDetector.analyzeCommentDrift, analyzeComments_nil, infoOnlyProfile,
    DriftDetector.emptyComments, ManasX.truthy, DriftDetector.densitySeverity]

/-- All four analyses on an empty file named x.js against `infoOnlyProfile`:
only the two comment violations are collected. -/
theorem collect_infoOnly :
    DriftDetector.collectViolations ['x', '.', 'j', 's'] ['x', '.', 'j', 's'] []
        infoOnlyProfile =
      [⟨"comment_drift", "comment_style", "info", 1, 1, "consistent_comment_style",
        some "single", some "jsdoc", none⟩,
       ⟨"comment_drift", "comment_density", "info", 1, 1, "consistent_comment_density",
        some "high", some "none", none⟩] := by
  have hn : DriftDetector.analyzeNamingDrift [] ['x', '.', 'j', 's'] infoOnlyProfile
    = [] := rfl
  have hi : DriftDetector.analyzeImportDrift [] infoOnlyProfile = [] := rfl
  have ha : DriftDetector.analyzeArchitectureDrift ['x', '.', 'j', 's'] infoOnlyProfile
    = [] := rfl
  simp [DriftDetector.collectViolations, hn, hi, ha, commentDrift_infoOnly]

/-- Score of the two collected info violations: 100 - 2*(1/2 + 1/2) = 98. -/
theorem score_two_info :
    DriftDetector.calculateComplianceScore
      [⟨"comment_drift", "comment_style", "info", 1, 1, "consistent_comment_style",
        some "single", some "jsdoc", none⟩,
       ⟨"comment_drift", "comment_density", "info", 1, 1, "consistent_comment_density",
        some "high", some "none", none⟩] = 98 := by
  have hw : DriftDetector.severityWeights "info" = 1/2 := rfl
  simp only [DriftDetector.calculateComplianceScore, List.foldl, hw]
  norm_num [ManasX.minQ, ManasX.maxQ]

/-- The compliance score of an empty violation list is 100. -/
theorem score_nil : DriftDetector.calculateComplianceScore [] = 100 := by
  simp only [DriftDetector.calculateComplianceScore, List.foldl]
  norm_num [ManasX.minQ, ManasX.maxQ]

/-- C5 counterexample. On an empty file against `infoOnlyProfile`, the two
collected violations (comment style, comment density) are both info-level:
with `includeInfo = false` the reported list is empty, yet the compliance
score is 98, not the 100 that rescoring the info-stripped list yields — so
the score is computed before the filter, not after it as the claim states. -/
theorem C5_counterexample :
    (DriftDetector.analyzeDriftInFile "x.js".data "x.js".data [] infoOnlyProfile
        (7/10) 3 false).violations = [] ∧
    (DriftDetector.analyzeDriftInFile "x.js".data "x.js".data [] infoOnlyProfile
        (7/10) 3 false).complianceScore = 98 ∧
    (DriftDetector.analyzeDriftInFile "x.js".data "x.js".data [] infoOnlyProfile
        (7/10) 3 false).complianceScore ≠
      DriftDetector.calculateComplianceScore
        ((DriftDetector.analyzeDriftInFile "x.js".data "x.js".data [] infoOnlyProfile
            (7/10) 3 false).violations) := by
  have hres : (DriftDetector.analyzeDriftInFile "x.js".data "x.js".data [] infoOnlyProfile
      (7/10) 3 false).violations = [] := by
    simp only [DriftDetector.analyzeDriftInFile, collect_infoOnly]
    decide
  have hscore : (DriftDetector.analyzeDriftInFile "x.js".data "x.js".data [] infoOnlyProfile
      (7/10) 3 false).complianceScore = 98 := by
    simp only [DriftDetector.analyzeDriftInFile, collect_infoOnly, score_two_info]
  refine ⟨hres, hscore, ?_⟩
  rw [hres, hscore, score_nil]
  norm_num

/-- C5 amended. With `includeInfo = false`, info-level violations are always
collected and the compliance score is computed over the full collected list;
the info filter is applied only afterwards, to the reported violation list
(which then gets context attached). -/
theorem C5_info_filtered_after_scoring (filePath relativePath content : Chars)
    (P : DriftDetector.Recommendations) (threshold : ℚ) (contextSize : Nat) :
    (DriftDetector.analyzeDriftInFile filePath relativePath content P threshold
        contextSize false).complianceScore =
      DriftDetector.calculateComplianceScore
        (DriftDetector.collectViolations filePath relativePath content P) ∧
    (DriftDetector.analyzeDriftInFile filePath relativePath content P threshold
        contextSize false).violations =
      ((DriftDetector.collectViolations filePath relativePath content P).filter
          (fun v => v.severity != "info")).map
        (fun v => { v with context := some (DriftDetector.getContext
            (splitOnChar (Char.ofNat 10) content) v.line contextSize) }) :=
  ⟨rfl, rfl⟩

/-- C9 counterexample profile: learned-shaped comment recommendations
(jsdoc style, medium density). -/
def mediumDensityProfile : DriftDetector.Recommendations :=
  ⟨none, none, none, some ⟨some "jsdoc", some "medium"⟩⟩

/-- Comment drift of an empty file against `mediumDensityProfile`: the
dominant style matches, the density does not, and the expected density
medium maps to severity low. -/
theorem commentDrift_medium :
    DriftDetector.analyzeCommentDrift [] mediumDensityProfile =
      [⟨"comment_drift", "comment_density", "low", 1, 1, "consistent_comment_density",
        some "medium", some "none", none⟩] := by
  simp [DriftDetector.analyzeCommentDrift, analyzeComments_nil, mediumDensityProfile,
    DriftDetector.emptyComments, ManasX.truthy, DriftDetector.densitySeverity]

/-- Collected violations of an empty x.js against `mediumDensityProfile`. -/
theorem collect_medium :
    DriftDetector.collectViolations ['x', '.', 'j', 's'] ['x', '.', 'j', 's'] []
        mediumDensityProfile =
      [⟨"comment_drift", "comment_density", "low", 1, 1, "consistent_comment_density",
        some "medium", some "none", none⟩] := by
  have hn : DriftDetector.analyzeNamingDrift [] ['x', '.', 'j', 's'] mediumDensityProfile
    = [] := rfl
  have hi : DriftDetector.analyzeImportDrift [] mediumDensityProfile = [] := rfl
  have ha : DriftDetector.analyzeArchitectureDrift ['x', '.', 'j', 's']
    mediumDensityProfile = [] := rfl
  simp [DriftDetector.collectViolations, hn, hi, ha, commentDrift_medium]

/-- Score of one low-severity violation: 100 - 2*1 = 98. -/
theorem score_one_low :
    DriftDetector.calculateComplianceScore
      [⟨"comment_drift", "comment_density", "low", 1, 1, "consistent_comment_density",
        some "medium", some "none", none⟩] = 98 := by
  have hw : DriftDetector.severityWeights "low" = 1 := rfl
  simp only [DriftDetector.calculateComplianceScore, List.foldl, hw]
  norm_num [ManasX.minQ, ManasX.maxQ]

/-- C9 counterexample. Against `mediumDensityProfile`, an empty file yields
one low-severity comment-density violation and a compliance score of 98 —
not zero violations and 100 as claimed for every profile. -/
theorem C9_counterexample :
    (DriftDetector.analyzeDriftInFile "x.js".data "x.js".data [] mediumDensityProfile
        (7/10) 3 false).violations.length = 1 ∧
    (DriftDetector.analyzeDriftInFile "x.js".data "x.js".data [] mediumDensityProfile
        (7/10) 3 false).complianceScore = 98 := by
  constructor
  · simp only [DriftDetector.analyzeDriftInFile, collect_medium]
    decide
  · simp only [DriftDetector.analyzeDriftInFile, collect_medium, score_one_low]

/-- A profile with no recommendations in any section. -/
def emptyRecommendations : DriftDetector.Recommendations := ⟨none, none, none, none⟩

/-- C9 amended. For a profile with no applicable recommendations, drift
analysis of an empty file yields zero violations and a compliance score of
100 (an empty file can still violate file-naming, architecture or comment
recommendations when they are present, see the counterexample). -/
theorem C9_empty_file_clean_for_empty_profile (filePath relativePath : Chars)
    (threshold : ℚ) (contextSize : Nat) (includeInfo : Bool) :
    (DriftDetector.analyzeDriftInFile filePath relativePath [] emptyRecommendations
        threshold contextSize includeInfo).violations = [] ∧
    (DriftDetector.analyzeDriftInFile filePath relativePath [] emptyRecommendations
        threshold contextSize includeInfo).complianceScore = 100 := by
  cases includeInfo <;> refine ⟨rfl, ?_⟩ <;>
    · show DriftDetector.calculateComplianceScore [] = 100
      exact score_nil

/-- C6 scenario config: a no-eval rule plus the exception
`{file: legacy/*, rule: security/no-eval}`. -/
def legacyExceptionConfig : RuleEngine.RuleConfig :=
  { metadata := some ⟨some "1.0.0", some "Test Rules", none, none⟩,
    global := none,
    rules := some [("security",
      { enabled := true,
        rules := some [("no-eval",
          { name := none, description := none, severity := some "critical",
            enabled := none, parameters := none })] })],
    exceptions := some [⟨some "legacy/*", some "security/no-eval"⟩] }

/-- The engine state after loading `legacyExceptionConfig`. -/
def legacyEngineState : RuleEngine.RuleEngineState :=
  RuleEngine.processConfiguration RuleEngine.initialState legacyExceptionConfig

/-- C6 counterexample. With the exception file pattern `legacy/*` configured,
`applyRules` on `legacy/old.js` containing `eval(` does NOT return zero
violations: exception matching is literal-or-star, so `legacy/*` never
equals `legacy/old.js` and the no-eval rule still fires. -/
theorem C6_counterexample :
    RuleEngine.applyRules legacyEngineState "legacy/old.js" "eval(x)".data none ≠ [] := by
  decide

/-- C6 amended. The same call returns exactly one critical
`security/no-eval` violation on line 1: the `legacy/*` exception entry is
compared literally and does not suppress it (only `legacy/old.js` or `*`
would). -/
theorem C6_literal_exception_does_not_glob :
    RuleEngine.applyRules legacyEngineState "legacy/old.js" "eval(x)".data none =
      [⟨"security/no-eval", "critical", "legacy/old.js", 1, "security"⟩] := by
  decide

/-- Helper for C7: when every rule is excepted for this file, the applyRules
fold returns its accumulator unchanged. -/
theorem foldl_rules_all_excepted (st : RuleEngine.RuleEngineState) (fp : String)
    (content : Chars) (lp : Option DriftDetector.Recommendations)
    (hx : ∀ rid, RuleEngine.hasException st fp rid = true) :
    ∀ (l : List (String × RuleEngine.Rule)) (acc : List RuleEngine.RuleViolation),
      l.foldl (fun violations entry =>
        if !entry.snd.enabled || RuleEngine.hasException st fp entry.fst then violations
        else violations ++ RuleEngine.executeRule entry.snd fp content lp) acc = acc := by
  intro l
  induction l with
  | nil => intro acc; rfl
  | cons e t ih =>
    intro acc
    rw [List.foldl_cons]
    simp only [hx e.fst, Bool.or_true, if_true]
    exact ih acc

/-- C7. With an exception key `a.js:*` configured (the processed form of
`{file: a.js, rule: *}`), `applyRules` yields no violation for `a.js`
whatever the rule registry contains and in whatever order — the exception
check runs before each rule executes. -/
theorem C7_star_exception_suppresses_file (st : RuleEngine.RuleEngineState)
    (content : Chars) (lp : Option DriftDetector.Recommendations)
    (h : st.exceptions.contains "a.js:*" = true) :
    RuleEngine.applyRules st "a.js" content lp = [] := by
  have hx : ∀ rid, RuleEngine.hasException st "a.js" rid = true := by
    intro rid
    have hmem : "a.js:*" ∈ st.exceptions := by simpa using h
    simp [RuleEngine.hasException]
    exact Or.inr (Or.inl hmem)
  unfold RuleEngine.applyRules
  exact foldl_rules_all_excepted st "a.js" content lp hx st.rules []

/-- C7 scenario config: the no-eval rule plus exception `{file: a.js, rule: *}`. -/
def starExceptionConfig : RuleEngine.RuleConfig :=
  { legacyExceptionConfig with exceptions := some [⟨some "a.js", some "*"⟩] }

def starEngineState : RuleEngine.RuleEngineState :=
  RuleEngine.processConfiguration RuleEngine.initialState starExceptionConfig

/-- C7 witness: the concrete engine with `{file: a.js, rule: *}` flags
nothing on `a.js` even for eval content. -/
theorem C7_star_exception_suppresses_file_witness :
    starEngineState.exceptions.contains "a.js:*" = true ∧
    RuleEngine.applyRules starEngineState "a.js" "eval(x)".data none = [] :=
  ⟨by decide, C7_star_exception_suppresses_file starEngineState "eval(x)".data none (by decide)⟩

/-- A filesystem with no accessible files at all. -/
def missingFileSystem : RuleEngine.FileSystem :=
  ⟨[], fun _ => RuleEngine.ReadOutcome.enoent⟩

/-- C2 divergence. When the configuration file exists nowhere on the walk
from the working directory upward, `findConfigFile` throws a plain `Error`
whose `code` is undefined; the catch in `loadRules` only recovers on
`code === ENOENT`, so `loadRules` rethrows instead of returning the default
configuration — a missing rule file IS fatal to `loadRules`. -/
theorem C2_missing_config_file_throws :
    (RuleEngine.loadRules missingFileSystem ["home", "user"] RuleEngine.initialState
        "manasx-rules.json").snd =
      Except.error (RuleEngine.JsError.plain
        "Configuration file manasx-rules.json not found") := by
  rfl

/-- C10. Whenever `loadRules` takes its ENOENT fallback branch (resolution
succeeded, the read threw ENOENT), it returns the default configuration
without registering any of its rules: the registry stays empty and every
subsequent `applyRules` call returns no violations for any file or content. -/
theorem C10_fallback_registers_no_rules (fs : RuleEngine.FileSystem)
    (cwd : List String) (configPath rp : String)
    (h1 : RuleEngine.findConfigFile fs cwd configPath = Except.ok rp)
    (h2 : fs.read rp = RuleEngine.ReadOutcome.enoent) :
    (RuleEngine.loadRules fs cwd RuleEngine.initialState configPath).snd =
      Except.ok RuleEngine.getDefaultConfiguration ∧
    (RuleEngine.loadRules fs cwd RuleEngine.initialState configPath).fst.rules = [] ∧
    ∀ (relativePath : String) (content : Chars)
      (lp : Option DriftDetector.Recommendations),
      RuleEngine.applyRules
        (RuleEngine.loadRules fs cwd RuleEngine.initialState configPath).fst
        relativePath content lp = [] := by
  unfold RuleEngine.loadRules
  rw [h1]
  simp only [h2]
  refine ⟨rfl, rfl, ?_⟩
  intro relativePath content lp
  rfl

/-- A filesystem where `fs.access` sees the config but the subsequent read
throws ENOENT (the file vanished between the two syscalls). -/
def raceFileSystem : RuleEngine.FileSystem :=
  ⟨["/proj/manasx-rules.json"], fun _ => RuleEngine.ReadOutcome.enoent⟩

/-- C10 witness: concrete fallback run, then `applyRules` on eval content. -/
theorem C10_fallback_registers_no_rules_witness :
    RuleEngine.findConfigFile raceFileSystem ["proj"] "manasx-rules.json" =
      Except.ok "/proj/manasx-rules.json" ∧
    ((RuleEngine.loadRules raceFileSystem ["proj"] RuleEngine.initialState
        "manasx-rules.json").snd = Except.ok RuleEngine.getDefaultConfiguration ∧
     (RuleEngine.loadRules raceFileSystem ["proj"] RuleEngine.initialState
        "manasx-rules.json").fst.rules = [] ∧
     ∀ (relativePath : String) (content : Chars)
       (lp : Option DriftDetector.Recommendations),
       RuleEngine.applyRules
         (RuleEngine.loadRules raceFileSystem ["proj"] RuleEngine.initialState
            "manasx-rules.json").fst relativePath content lp = []) :=
  ⟨rfl, C10_fallback_registers_no_rules raceFileSystem ["proj"] "manasx-rules.json"
    "/proj/manasx-rules.json" rfl rfl⟩

/-- C3 counterexample environment: the file exists and is watched, all three
stages are enabled and available, the AI detector throws, and the drift
detector and rule engine would each report a violation. -/
def crashingAIEnv : ContinuousMonitor.AnalyzeEnv String :=
  { fileExists := true, shouldWatchFile := true, readFile := Except.ok (),
    relativePath := "a.js",
    enableAIDetection := true, enableDriftDetection := true, enableRuleChecking := true,
    hasDriftDetector := true, hasOrganizationalRules := true,
    detectAICode := Except.error "AI detector crashed",
    auditAICode := Except.ok ⟨[], []⟩,
    detectDrift := Except.ok ⟨50, ["drift violation"]⟩,
    applyRules := Except.ok ["rule violation"] }

/-- C3 counterexample. When the first stage (AI detection) throws, the
monitor catches it, but the drift-detection and rule-checking stages never
run for that file: no AnalysisResult is produced (so neither the drift
score nor any of the two available violations is recorded), and
`violationsFound` stays 0 even though two violations were waiting. Only
`changesDetected` was incremented before the throw. -/
theorem C3_counterexample :
    ContinuousMonitor.analyzeFile crashingAIEnv ⟨0, 0, 0, 0⟩ = (⟨0, 1, 0, 0⟩, none) := by
  rfl

/-- C3 amended. An exception thrown in ANY analysis stage — AI detection,
the AI audit of flagged content, drift detection, or rule checking — is
caught by the single try/catch around the whole per-file analysis: the
monitor survives, the stats keep exactly the increments made before the
failing call (`changesDetected`, plus `aiCodeDetected` when the AI stage had
already flagged the file), the remaining stages are skipped, and no
AnalysisResult is recorded. One conjunct per failing stage; each fixes the
outcome of the stages before the failure and holds for every environment,
so the conclusion is independent of what the skipped later stages would
have returned. -/
theorem C3_stage_failure_aborts_remaining_stages {α : Type}
    (env : ContinuousMonitor.AnalyzeEnv α) (s : ContinuousMonitor.MonitorStats)
    (h1 : env.fileExists = true) (h2 : env.shouldWatchFile = true)
    (h3 : env.readFile = Except.ok ()) :
    (∀ e : String, env.enableAIDetection = true →
      env.detectAICode = Except.error e →
      ContinuousMonitor.analyzeFile env s =
        ({ s with changesDetected := s.changesDetected + 1 }, none)) ∧
    (∀ (e : String) (r : ContinuousMonitor.AIDetectResult),
      env.enableAIDetection = true → env.detectAICode = Except.ok r →
      r.isLikelyAI = true → env.auditAICode = Except.error e →
      ContinuousMonitor.analyzeFile env s =
        ({ s with changesDetected := s.changesDetected + 1,
                  aiCodeDetected := s.aiCodeDetected + 1 }, none)) ∧
    (∀ (e : String) (t : ContinuousMonitor.MonitorStats)
       (a : ContinuousMonitor.Analysis α),
      ContinuousMonitor.stage1 env
          { s with changesDetected := s.changesDetected + 1 }
          (ContinuousMonitor.initialAnalysis env) = Except.ok (t, a) →
      (env.enableDriftDetection && env.hasDriftDetector) = true →
      env.detectDrift = Except.error e →
      ContinuousMonitor.analyzeFile env s = (t, none)) ∧
    (∀ (e : String) (t : ContinuousMonitor.MonitorStats)
       (a : ContinuousMonitor.Analysis α),
      ContinuousMonitor.stage2 env (ContinuousMonitor.stage1 env
          { s with changesDetected := s.changesDetected + 1 }
          (ContinuousMonitor.initialAnalysis env)) = Except.ok (t, a) →
      (env.enableRuleChecking && env.hasOrganizationalRules) = true →
      env.applyRules = Except.error e →
      ContinuousMonitor.analyzeFile env s = (t, none)) := by
  refine ⟨?_, ?_, ?_, ?_⟩
  · intro e hAI hDet
    unfold ContinuousMonitor.analyzeFile ContinuousMonitor.stage1
    rw [h1, h2, h3, hAI, hDet]
    rfl
  · intro e r hAI hDet hLikely hAudit
    unfold ContinuousMonitor.analyzeFile ContinuousMonitor.stage1
    rw [h1, h2, h3, hAI, hDet]
    simp only [hLikely, hAudit, ContinuousMonitor.stage2, ContinuousMonitor.stage3]
    rfl
  · intro e t a hs1 hcond hDrift
    unfold ContinuousMonitor.analyzeFile
    rw [h1, h2, h3]
    simp only [hs1, ContinuousMonitor.stage2, hcond, hDrift,
      ContinuousMonitor.stage3]
    rfl
  · intro e t a hs2 hcond hRules
    unfold ContinuousMonitor.analyzeFile
    rw [h1, h2, h3]
    simp only [hs2, ContinuousMonitor.stage3, hcond, hRules]
    rfl

/-- C3 environment where the AI detector flags the file but the AI auditor
then throws; drift and rule stages would still succeed. -/
def crashingAuditEnv : ContinuousMonitor.AnalyzeEnv String :=
  { fileExists := true, shouldWatchFile := true, readFile := Except.ok (),
    relativePath := "a.js",
    enableAIDetection := true, enableDriftDetection := true, enableRuleChecking := true,
    hasDriftDetector := true, hasOrganizationalRules := true,
    detectAICode := Except.ok ⟨true, 1, ["i1", "i2", "i3", "i4"], "review"⟩,
    auditAICode := Except.error "AI auditor crashed",
    detectDrift := Except.ok ⟨50, ["drift violation"]⟩,
    applyRules := Except.ok ["rule violation"] }

/-- C3 environment where AI detection succeeds (not flagged) and the drift
detector throws; rule checking would still succeed. -/
def crashingDriftEnv : ContinuousMonitor.AnalyzeEnv String :=
  { fileExists := true, shouldWatchFile := true, readFile := Except.ok (),
    relativePath := "a.js",
    enableAIDetection := true, enableDriftDetection := true, enableRuleChecking := true,
    hasDriftDetector := true, hasOrganizationalRules := true,
    detectAICode := Except.ok ⟨false, 0, [], "looks human"⟩,
    auditAICode := Except.ok ⟨[], []⟩,
    detectDrift := Except.error "drift detector crashed",
    applyRules := Except.ok ["rule violation"] }

/-- C3 environment where AI detection and drift detection succeed and the
rule engine throws. -/
def crashingRulesEnv : ContinuousMonitor.AnalyzeEnv String :=
  { fileExists := true, shouldWatchFile := true, readFile := Except.ok (),
    relativePath := "a.js",
    enableAIDetection := true, enableDriftDetection := true, enableRuleChecking := true,
    hasDriftDetector := true, hasOrganizationalRules := true,
    detectAICode := Except.ok ⟨false, 0, [], "looks human"⟩,
    auditAICode := Except.ok ⟨[], []⟩,
    detectDrift := Except.ok ⟨90, []⟩,
    applyRules := Except.error "rule engine crashed" }

/-- C3 amended witness: one concrete run per failing stage — detector throw,
auditor throw (keeping the aiCodeDetected increment), drift throw after a
clean AI stage, and rule-engine throw after clean AI and drift stages. -/
theorem C3_stage_failure_aborts_remaining_stages_witness :
    ContinuousMonitor.analyzeFile crashingAIEnv ⟨2, 3, 4, 5⟩ = (⟨2, 4, 4, 5⟩, none) ∧
    ContinuousMonitor.analyzeFile crashingAuditEnv ⟨0, 0, 0, 0⟩ = (⟨0, 1, 0, 1⟩, none) ∧
    ContinuousMonitor.analyzeFile crashingDriftEnv ⟨0, 0, 0, 0⟩ = (⟨0, 1, 0, 0⟩, none) ∧
    ContinuousMonitor.analyzeFile crashingRulesEnv ⟨0, 0, 0, 0⟩ = (⟨0, 1, 0, 0⟩, none) :=
  ⟨(C3_stage_failure_aborts_remaining_stages crashingAIEnv ⟨2, 3, 4, 5⟩
      rfl rfl rfl).1 "AI detector crashed" rfl rfl,
   (C3_stage_failure_aborts_remaining_stages crashingAuditEnv ⟨0, 0, 0, 0⟩
      rfl rfl rfl).2.1 "AI auditor crashed" ⟨true, 1, ["i1", "i2", "i3", "i4"], "review"⟩
      rfl rfl rfl rfl,
   (C3_stage_failure_aborts_remaining_stages crashingDriftEnv ⟨0, 0, 0, 0⟩
      rfl rfl rfl).2.2.1 "drift detector crashed" ⟨0, 1, 0, 0⟩
      ⟨"a.js", [], 0, some ⟨false, 0, [], "looks human"⟩, none, []⟩ rfl rfl rfl,
   (C3_stage_failure_aborts_remaining_stages crashingRulesEnv ⟨0, 0, 0, 0⟩
      rfl rfl rfl).2.2.2 "rule engine crashed" ⟨0, 1, 0, 0⟩
      ⟨"a.js", [], 0, some ⟨false, 0, [], "looks human"⟩, some 90, []⟩ rfl rfl rfl⟩

/-- C4 divergence. `calculateConfidence` computes its file total as
`Object.values(fileTypes)` where `fileTypes` is a JS `Map`; `Object.values`
of a `Map` instance is always the empty array, so the total is always 0 and
the confidence is always low — for a 60-file learning pass just as for any
other, never medium or high. -/
theorem C4_confidence_always_low (files : List Chars) :
    PatternLearner.calculateConfidence (PatternLearner.learnFileTypes files) = "low" := by
  rfl
